import Mathlib

/-!
Verification of the vapoursynth4-rs node and core layer.

This file gives a shallow embedding of the Rust binding layer in
src/vapoursynth4-rs/src/node.rs and src/vapoursynth4-rs/src/core.rs and proves
the central contracts of the filter activation dispatcher, the registration
paths, the synchronous frame pull, the reference-counting discipline and the
core builder.  The external VapourSynth engine is not part of the repository:
every call into it is modelled as an oracle parameter (a function from the
delivered arguments to the engine's visible response), and where a claim rests
on the engine's documented behaviour that behaviour is modelled from the
specification and marked as such.  Types that live in repository files not in
this snapshot (Frame, FrameContext, the error map) are likewise modelled from
the specification, reduced to the structure the code at hand observes.
-/

/-- Activation reason tag passed by the engine to an activation
(ffi.VSActivationReason). -/
inductive VSActivationReason
  | Initial
  | AllFramesReady
  | Error
deriving DecidableEq

/-- Modelled from the spec: a Frame is an owned, reference-counted handle to an
engine frame (frame.rs is not in this snapshot); the dispatcher only observes
its raw pointer, returned by as_ptr. -/
structure Frame where
  ptr : Nat
deriving DecidableEq

/-- Modelled from the spec: the FrameContext state this layer can affect — the
filter error recorded for the current request.  The spec: the context is the
channel for "recording a fatal-for-this-frame error", and "the recovered
message becomes the filter error recorded on the FrameContext for this
request". -/
structure FrameContextState where
  filterError : Option String
deriving DecidableEq

/-- Modelled from the spec: FrameContext.set_filter_error records the message
as the filter error for this request. -/
def set_filter_error (ctx : FrameContextState) (msg : String) : FrameContextState :=
  { ctx with filterError := some msg }

/-- A Rust panic payload as the dispatcher can observe it: either a string
slice, or a value of any other type (String from a formatted panic message,
or an arbitrary payload). -/
inductive PanicPayload
  | strPayload (s : String)
  | otherPayload (tag : Nat)
deriving DecidableEq

/-- Box.downcast to a string slice: succeeds exactly on strPayload.  Applying
Result.unwrap_unchecked to its failure case is undefined behavior. -/
def downcast_str : PanicPayload → Option String
  | .strPayload s => some s
  | .otherPayload _ => none

/-- The outcome of one Filter.get_frame call as seen by the dispatcher:
a returned value, or a panic carrying some payload. -/
inductive FilterCall
  | returns (r : Except String (Option Frame))
  | panics (p : PanicPayload)

/-- Observable result of the foreign dispatcher FilterExtern::filter_get_frame:
either a normal return carrying the raw frame pointer handed to the engine
(none encodes the null pointer), the frame-context state after the call, and
whether the destructor of the filter's local frame handle ran; or undefined
behavior (the code reaches Result.unwrap_unchecked on an Err value). -/
inductive FFIOutcome
  | ret (framePtr : Option Nat) (ctx : FrameContextState) (localHandleDropRan : Bool)
  | undefinedBehavior
deriving DecidableEq

/-- Shallow embedding of FilterExtern::filter_get_frame
(node.rs lines 281-316).  The filter instance is the function from the frame
number and activation reason to the call outcome; the dispatcher wraps the
call in catch_unwind and then matches, in source order:
Ok(Ok(Some(frame))) wraps the frame in ManuallyDrop (destructor suppressed)
and returns its raw pointer; Ok(Err(e)) records e as the filter error and
falls through to return null; Err(p) downcasts the payload to a string slice
with unwrap_unchecked — undefined behavior unless the payload is a string
slice — and records it; the catch-all (Ok(Ok(None))) does nothing and
returns null. -/
def filter_get_frame (filter : Int → VSActivationReason → FilterCall)
    (n : Int) (activation_reason : VSActivationReason)
    (ctx : FrameContextState) : FFIOutcome :=
  match filter n activation_reason with
  | .returns (.ok (some frame)) => .ret (some frame.ptr) ctx false
  | .returns (.error e) => .ret none (set_filter_error ctx e) false
  | .panics p =>
    match downcast_str p with
    | some s => .ret none (set_filter_error ctx s) false
    | none => .undefinedBehavior
  | .returns (.ok none) => .ret none ctx false

/-- Whether a dispatcher outcome left a filter error recorded on the
frame context. -/
def recordsFilterError : FFIOutcome → Bool
  | .ret _ ctx _ => ctx.filterError.isSome
  | .undefinedBehavior => false

/-- Claim C1 (code bug, evaluated at the failing input): a panic whose payload
is a string slice is caught, its message is recorded as the filter error and
null is returned — but a panic with any other payload type (for example the
String produced by a formatted panic message) drives filter_get_frame into
Result.unwrap_unchecked on an Err (node.rs line 309), which is undefined
behavior, so the dispatcher does not record the recovered message and return
null for every payload type as claimed. -/
theorem c1_nonstr_panic_payload_is_undefined :
    filter_get_frame (fun _ _ => FilterCall.panics (PanicPayload.otherPayload 0)) 0
      VSActivationReason.AllFramesReady ⟨none⟩ = FFIOutcome.undefinedBehavior ∧
    filter_get_frame (fun _ _ => FilterCall.panics (PanicPayload.strPayload "boom")) 0
      VSActivationReason.AllFramesReady ⟨none⟩ =
      FFIOutcome.ret none ⟨some "boom"⟩ false := by
  exact ⟨rfl, rfl⟩

/-- Claim C2, counterexample: a filter returning Ok(None) under
AllFramesReady makes the dispatcher return a null frame pointer with no
filter error recorded — the Ok(Ok(None)) case falls into the catch-all arm
that does nothing (node.rs line 312) — refuting the claim that a filter
error is recorded for the request. -/
theorem c2_counterexample_ok_none_is_silent :
    recordsFilterError (filter_get_frame
      (fun _ _ => FilterCall.returns (Except.ok none)) 7
      VSActivationReason.AllFramesReady ⟨none⟩) = false ∧
    filter_get_frame (fun _ _ => FilterCall.returns (Except.ok none)) 7
      VSActivationReason.AllFramesReady ⟨none⟩ =
      FFIOutcome.ret none ⟨none⟩ false := by
  exact ⟨rfl, rfl⟩

/-- Claim C2 (amended): for every activation in which the filter's get_frame
returns Ok(None) — the AllFramesReady reason included — the dispatcher
returns a null frame pointer and records no filter error; the contract
violation is passed through silently rather than being turned into an
internal filter error. -/
theorem c2_ok_none_returns_null_without_error
    (filter : Int → VSActivationReason → FilterCall) (n : Int)
    (reason : VSActivationReason) (ctx : FrameContextState)
    (h : filter n reason = FilterCall.returns (Except.ok none)) :
    filter_get_frame filter n reason ctx = FFIOutcome.ret none ctx false := by
  unfold filter_get_frame
  rw [h]

/-- Witness for the amended C2 theorem at a concrete activation. -/
theorem c2_ok_none_witness :
    (fun (_ : Int) (_ : VSActivationReason) => FilterCall.returns (Except.ok none)) 3
      VSActivationReason.Initial = FilterCall.returns (Except.ok (none : Option Frame)) ∧
    filter_get_frame (fun _ _ => FilterCall.returns (Except.ok none)) 3
      VSActivationReason.Initial ⟨some "prior"⟩ =
      FFIOutcome.ret none ⟨some "prior"⟩ false :=
  ⟨rfl, c2_ok_none_returns_null_without_error _ 3 VSActivationReason.Initial ⟨some "prior"⟩ rfl⟩

/-- Claim C3: when the filter's get_frame returns Ok(Some(frame)), the
dispatcher returns that frame's raw pointer to the engine and the local
handle's destructor does not run (the handle is wrapped in ManuallyDrop,
node.rs lines 300-304), so the frame's reference count is not decremented by
the dispatcher and the engine receives the sole live reference; the context
is left untouched. -/
theorem c3_success_transfers_frame_ownership
    (filter : Int → VSActivationReason → FilterCall) (n : Int)
    (reason : VSActivationReason) (ctx : FrameContextState) (frame : Frame)
    (h : filter n reason = FilterCall.returns (Except.ok (some frame))) :
    filter_get_frame filter n reason ctx = FFIOutcome.ret (some frame.ptr) ctx false := by
  unfold filter_get_frame
  rw [h]

/-- Witness for the C3 theorem at a concrete activation and frame. -/
theorem c3_success_witness :
    (fun (_ : Int) (_ : VSActivationReason) =>
      FilterCall.returns (Except.ok (some (⟨42⟩ : Frame)))) 0
      VSActivationReason.AllFramesReady =
      FilterCall.returns (Except.ok (some (⟨42⟩ : Frame))) ∧
    filter_get_frame (fun _ _ => FilterCall.returns (Except.ok (some ⟨42⟩))) 0
      VSActivationReason.AllFramesReady ⟨none⟩ =
      FFIOutcome.ret (some 42) ⟨none⟩ false :=
  ⟨rfl, c3_success_transfers_frame_ownership _ 0 VSActivationReason.AllFramesReady ⟨none⟩ ⟨42⟩ rfl⟩

/-- The largest value of the 32-bit signed integer type, the protocol's limit
on the dependency count. -/
def i32_max : Nat := 2147483647

/-- A filter dependency declaration (ffi.VSFilterDependency): the upstream
node and the declared request pattern; only its presence in the array matters
to the registration layer. -/
structure VSFilterDependency where
  source : Nat
  requestPattern : Nat
deriving DecidableEq

/-- Arguments a registration call delivers to the engine's registration entry
point once the boundary checks have passed: the bytes of the null-terminated
name and the dependency array (whose length then fits in an i32). -/
structure RegCall where
  nameBytes : List Nat
  deps : List VSFilterDependency
deriving DecidableEq

/-- The structured v1 registration failure (error.rs FilterError; the file is
not in this snapshot — its three variants are read off their construction
sites in core.rs and the spec's error taxonomy). -/
inductive FilterError
  | InvalidName
  | TooMuchDependency
  | Internal (msg : String)
deriving DecidableEq

/-- Shallow embedding of Core::create_video_filter (core.rs lines 105-139).
CString::new rejects a name with an embedded null byte (InvalidName) before
anything else; the dependency count is converted to i32 while the engine call's
arguments are evaluated, so a count above i32_max fails with TooMuchDependency
with the engine still uninvoked; otherwise the engine's createVideoFilter runs
— modelled as an oracle from the delivered arguments to the error entry it
writes into the out-parameter map (MapMut.get_error; map.rs is not in this
snapshot, the error map is modelled from the spec) — and a non-empty entry
becomes Internal.  The first component records the engine invocation, none
when the call never reached the engine. -/
def create_video_filter (engine : RegCall → Option String)
    (name : List Nat) (deps : List VSFilterDependency) :
    Option RegCall × Except FilterError Unit :=
  if name.contains 0 then (none, .error .InvalidName)
  else if deps.length ≤ i32_max then
    match engine ⟨name, deps⟩ with
    | some e => (some ⟨name, deps⟩, .error (.Internal e))
    | none => (some ⟨name, deps⟩, .ok ())
  else (none, .error .TooMuchDependency)

/-- Shallow embedding of Core::create_audio_filter (core.rs lines 144-178).
Same shape as the video path, but the error type is a plain C string: the
fixed message "Invalid name" for an embedded null byte, the fixed message
"dependencies len is larger than i32::MAX" for a dependency count above
i32_max, and the engine's own error entry otherwise. -/
def create_audio_filter (engine : RegCall → Option String)
    (name : List Nat) (deps : List VSFilterDependency) :
    Option RegCall × Except String Unit :=
  if name.contains 0 then (none, .error "Invalid name")
  else if deps.length ≤ i32_max then
    match engine ⟨name, deps⟩ with
    | some e => (some ⟨name, deps⟩, .error e)
    | none => (some ⟨name, deps⟩, .ok ())
  else (none, .error "dependencies len is larger than i32::MAX")

/-- Outcome of the v2 registration path NodeRef::new_video / new_audio: a node
handle built from the engine's non-null pointer, the None return, or the
documented deterministic panic raised by Result.unwrap when the dependency
count does not fit in an i32. -/
inductive V2Result
  | node (ptr : Nat)
  | noneReturned
  | panicked
deriving DecidableEq

/-- Shallow embedding of NodeRef::new_video (node.rs lines 84-112).
CString::new(name).ok()? returns None on an embedded null byte; the
dependency count conversion uses unwrap and panics above i32_max, still
before the engine call; otherwise the engine's createVideoFilter2 — an oracle
from the delivered arguments to the returned node pointer, none encoding
null — decides between None and Some node. -/
def new_video (engine : RegCall → Option Nat)
    (name : List Nat) (deps : List VSFilterDependency) :
    Option RegCall × V2Result :=
  if name.contains 0 then (none, .noneReturned)
  else if deps.length ≤ i32_max then
    match engine ⟨name, deps⟩ with
    | some p => (some ⟨name, deps⟩, .node p)
    | none => (some ⟨name, deps⟩, .noneReturned)
  else (none, .panicked)

/-- Shallow embedding of NodeRef::new_audio (node.rs lines 117-145), identical
in control flow to new_video with the engine's createAudioFilter2. -/
def new_audio (engine : RegCall → Option Nat)
    (name : List Nat) (deps : List VSFilterDependency) :
    Option RegCall × V2Result :=
  if name.contains 0 then (none, .noneReturned)
  else if deps.length ≤ i32_max then
    match engine ⟨name, deps⟩ with
    | some p => (some ⟨name, deps⟩, .node p)
    | none => (some ⟨name, deps⟩, .noneReturned)
  else (none, .panicked)

/-- Claim C4: a registration call whose name contains an embedded null byte
fails with the engine never invoked, so no node is registered: the v1 video
path returns the structured FilterError.InvalidName, the v1 audio path its
fixed "Invalid name" message, and both v2 paths return None. -/
theorem c4_embedded_null_name_rejected
    (engine₁ engine₂ : RegCall → Option String) (engine₃ engine₄ : RegCall → Option Nat)
    (name : List Nat) (deps : List VSFilterDependency)
    (h : name.contains 0 = true) :
    create_video_filter engine₁ name deps = (none, Except.error FilterError.InvalidName) ∧
    create_audio_filter engine₂ name deps = (none, Except.error "Invalid name") ∧
    new_video engine₃ name deps = (none, V2Result.noneReturned) ∧
    new_audio engine₄ name deps = (none, V2Result.noneReturned) := by
  have hm : 0 ∈ name := by simpa using h
  refine ⟨?_, ?_, ?_, ?_⟩ <;>
    simp [create_video_filter, create_audio_filter, new_video, new_audio, hm]

/-- Witness for the C4 theorem on the name [86, 0, 86] holding an embedded
null byte. -/
theorem c4_embedded_null_name_witness :
    ([86, 0, 86] : List Nat).contains 0 = true ∧
    create_video_filter (fun _ => none) [86, 0, 86] [] =
      (none, Except.error FilterError.InvalidName) ∧
    new_video (fun _ => none) [86, 0, 86] [] = (none, V2Result.noneReturned) :=
  have h := c4_embedded_null_name_rejected (fun _ => none) (fun _ => none)
    (fun _ => none) (fun _ => none) [86, 0, 86] [] (by decide)
  ⟨by decide, h.1, h.2.2.1⟩

/-- Claim C5, counterexample: on a registration call whose dependency array is
longer than i32_max but whose name also contains an embedded null byte, the
name check runs first, so the v1 video path fails with InvalidName — not
TooMuchDependency — and the v2 path returns None instead of panicking;
the claim's universally quantified statement is therefore false at this
input. -/
theorem c5_counterexample_null_name_preempts_length_check :
    create_video_filter (fun _ => none) [0]
      (List.replicate (i32_max + 1) ⟨0, 0⟩) =
      (none, Except.error FilterError.InvalidName) ∧
    new_video (fun _ => none) [0] (List.replicate (i32_max + 1) ⟨0, 0⟩) =
      (none, V2Result.noneReturned) ∧
    FilterError.InvalidName ≠ FilterError.TooMuchDependency ∧
    V2Result.noneReturned ≠ V2Result.panicked :=
  ⟨rfl, rfl, by decide, by decide⟩

/-- Claim C5 (amended): a registration call whose dependency array is longer
than i32_max never reaches the engine, on any of the four paths, so no node
is registered; and when the name is free of embedded null bytes the failure
is the claimed one: FilterError.TooMuchDependency on the v1 video path, the
fixed overflow message on the v1 audio path, and the documented deterministic
panic on both v2 paths. -/
theorem c5_dependency_overflow_rejected
    (engine₁ engine₂ : RegCall → Option String) (engine₃ engine₄ : RegCall → Option Nat)
    (name : List Nat) (deps : List VSFilterDependency)
    (hlen : i32_max < deps.length) :
    (create_video_filter engine₁ name deps).1 = none ∧
    (create_audio_filter engine₂ name deps).1 = none ∧
    (new_video engine₃ name deps).1 = none ∧
    (new_audio engine₄ name deps).1 = none ∧
    (name.contains 0 = false →
      create_video_filter engine₁ name deps =
        (none, Except.error FilterError.TooMuchDependency) ∧
      create_audio_filter engine₂ name deps =
        (none, Except.error "dependencies len is larger than i32::MAX") ∧
      new_video engine₃ name deps = (none, V2Result.panicked) ∧
      new_audio engine₄ name deps = (none, V2Result.panicked)) := by
  have hnot : ¬ deps.length ≤ i32_max := Nat.not_le.mpr hlen
  by_cases hm : 0 ∈ name <;>
    refine ⟨?_, ?_, ?_, ?_, ?_⟩ <;>
      simp [create_video_filter, create_audio_filter, new_video, new_audio, hm, hnot]

/-- Witness for the amended C5 theorem: a dependency array of length
i32_max + 1 with a valid one-byte name. -/
theorem c5_dependency_overflow_witness :
    i32_max < (List.replicate (i32_max + 1) (⟨0, 0⟩ : VSFilterDependency)).length ∧
    create_video_filter (fun _ => none) [86]
      (List.replicate (i32_max + 1) ⟨0, 0⟩) =
      (none, Except.error FilterError.TooMuchDependency) ∧
    new_video (fun _ => none) [86] (List.replicate (i32_max + 1) ⟨0, 0⟩) =
      (none, V2Result.panicked) :=
  have hlen : i32_max < (List.replicate (i32_max + 1) (⟨0, 0⟩ : VSFilterDependency)).length := by
    rw [List.length_replicate]
    exact Nat.lt_succ_self _
  have h := c5_dependency_overflow_rejected (fun _ => none) (fun _ => none)
    (fun _ => none) (fun _ => none) [86] (List.replicate (i32_max + 1) ⟨0, 0⟩) hlen
  ⟨hlen, (h.2.2.2.2 (by decide)).1, (h.2.2.2.2 (by decide)).2.2.1⟩

/-- Shallow embedding of NodeRef::get_frame (node.rs lines 161-173).  The
caller allocates a zeroed buffer of exactly 1024 bytes and passes it with its
size to the engine's getFrame — an oracle from the frame number, the buffer
and the size to the produced frame pointer (none encoding null) together with
the buffer content after the call.  On a null frame pointer the buffer is read
as a C string, the bytes up to the first null byte, and returned as the error;
otherwise the non-null pointer becomes an owned Frame handle. -/
def NodeRef.get_frame (engine : Int → List Nat → Nat → Option Nat × List Nat)
    (n : Int) : Except (List Nat) Frame :=
  let buf := List.replicate 1024 0
  match engine n buf 1024 with
  | (none, buf2) => .error (buf2.takeWhile (fun b => b != 0))
  | (some p, _) => .ok ⟨p⟩

/-- Claim C6: NodeRef::get_frame returns an error exactly when the engine's
synchronous pull produces a null frame pointer, and then the message is the
C-string content of the engine-filled error buffer; a non-null result becomes
an owned frame handle built from that pointer. -/
theorem c6_get_frame_error_iff_null
    (engine : Int → List Nat → Nat → Option Nat × List Nat) (n : Int) :
    (∀ buf2, engine n (List.replicate 1024 0) 1024 = (none, buf2) →
      NodeRef.get_frame engine n = Except.error (buf2.takeWhile (fun b => b != 0))) ∧
    (∀ p buf2, engine n (List.replicate 1024 0) 1024 = (some p, buf2) →
      NodeRef.get_frame engine n = Except.ok ⟨p⟩) := by
  constructor
  · intro buf2 h
    simp only [NodeRef.get_frame, h]
  · intro p buf2 h
    simp only [NodeRef.get_frame, h]

/-- Witness for the C6 theorem: an engine that fails writing "boom" into the
buffer, and one that succeeds with frame pointer 9. -/
theorem c6_get_frame_witness :
    (fun (_ : Int) (_ : List Nat) (_ : Nat) =>
        ((none : Option Nat), [98, 111, 111, 109, 0, 0])) 5 (List.replicate 1024 0) 1024 =
      ((none : Option Nat), [98, 111, 111, 109, 0, 0]) ∧
    NodeRef.get_frame (fun _ _ _ => (none, [98, 111, 111, 109, 0, 0])) 5 =
      Except.error [98, 111, 111, 109] ∧
    NodeRef.get_frame (fun _ _ _ => (some 9, [])) 5 = Except.ok ⟨9⟩ :=
  ⟨rfl,
    (c6_get_frame_error_iff_null (fun _ _ _ => (none, [98, 111, 111, 109, 0, 0])) 5).1
      [98, 111, 111, 109, 0, 0] rfl,
    (c6_get_frame_error_iff_null (fun _ _ _ => (some 9, [])) 5).2 9 [] rfl⟩

/-- On a list containing an element rejected by the predicate, takeWhile is a
proper prefix: its length is strictly below the list's length. -/
theorem length_takeWhile_lt_of_mem_not {α : Type} (p : α → Bool) :
    ∀ (l : List α) (a : α), a ∈ l → p a = false → (l.takeWhile p).length < l.length := by
  intro l
  induction l with
  | nil => intro a ha _; cases ha
  | cons x xs ih =>
      intro a ha hpa
      by_cases hx : p x = true
      · have hax : a ≠ x := fun h => by rw [h, hx] at hpa; cases hpa
        have haxs : a ∈ xs := by
          rcases List.mem_cons.mp ha with h | h
          · exact absurd h hax
          · exact h
        rw [List.takeWhile_cons, hx]
        simpa using Nat.succ_lt_succ (ih a haxs hpa)
      · rw [List.takeWhile_cons]
        simp only [Bool.not_eq_true] at hx
        rw [hx]
        simp

/-- Claim C10: whenever NodeRef::get_frame fails, the message comes from the
caller-allocated 1024-byte buffer handed to the engine and is cut at the
first null byte inside it; provided the engine null-terminated its message
within the buffer it got (the written buffer still has the 1024 bytes and
holds a null byte), the surfaced message is at most 1023 bytes long, however
long the underlying error was. -/
theorem c10_error_message_bounded
    (engine : Int → List Nat → Nat → Option Nat × List Nat) (n : Int)
    (buf2 : List Nat)
    (h : engine n (List.replicate 1024 0) 1024 = (none, buf2))
    (hlen : buf2.length = 1024) (hzero : 0 ∈ buf2) :
    NodeRef.get_frame engine n = Except.error (buf2.takeWhile (fun b => b != 0)) ∧
    (buf2.takeWhile (fun b => b != 0)).length ≤ 1023 := by
  constructor
  · simp only [NodeRef.get_frame, h]
  · have hlt := length_takeWhile_lt_of_mem_not (fun b => b != 0) buf2 0 hzero (by simp)
    omega

/-- Witness for the C10 theorem: an engine that fails, leaving a 1024-byte
buffer whose first byte is the null terminator. -/
theorem c10_error_message_witness :
    ((0 : Nat) :: List.replicate 1023 7).length = 1024 ∧
    (0 : Nat) ∈ 0 :: List.replicate 1023 7 ∧
    NodeRef.get_frame (fun _ _ _ => (none, 0 :: List.replicate 1023 7)) 0 =
      Except.error [] ∧
    (((0 : Nat) :: List.replicate 1023 7).takeWhile (fun b => b != 0)).length ≤ 1023 :=
  have hlen : ((0 : Nat) :: List.replicate 1023 7).length = 1024 := by
    rw [List.length_cons, List.length_replicate]
  have hmem : (0 : Nat) ∈ 0 :: List.replicate 1023 7 := List.mem_cons_self 0 _
  have h := c10_error_message_bounded (fun _ _ _ => (none, 0 :: List.replicate 1023 7)) 0
    (0 :: List.replicate 1023 7) rfl hlen hmem
  have htw : ((0 : Nat) :: List.replicate 1023 7).takeWhile (fun b => b != 0) = [] := rfl
  ⟨hlen, hmem, by rw [h.1, htw], h.2⟩

/-- Modelled from the spec: the engine-side state of one node's shared
reference count — "Cloning increments the shared reference count; destruction
decrements it and triggers the engine's own node teardown once it reaches
zero."  freeCount counts how often the teardown ran. -/
structure EngineNodeState where
  refcount : Nat
  freeCount : Nat
deriving DecidableEq

/-- Modelled from the spec: the engine's addNodeRef increments the count;
NodeRef::clone (node.rs lines 184-188) performs exactly this one engine
call. -/
def addNodeRef (s : EngineNodeState) : EngineNodeState :=
  { s with refcount := s.refcount + 1 }

/-- Modelled from the spec: the engine's freeNode decrements the count and
tears the node down when it reaches zero; NodeRef::drop (node.rs lines
190-194) performs exactly this one engine call. -/
def freeNode (s : EngineNodeState) : EngineNodeState :=
  if s.refcount = 1 then { refcount := 0, freeCount := s.freeCount + 1 }
  else { s with refcount := s.refcount - 1 }

/-- A handle operation: cloning a NodeRef or dropping one. -/
inductive NodeOp
  | cloneRef
  | dropRef
deriving DecidableEq

/-- Run a sequence of handle operations against the engine's reference-count
state, one engine call per operation. -/
def runNodeOps (ops : List NodeOp) (s : EngineNodeState) : EngineNodeState :=
  ops.foldl (fun s op => match op with
    | NodeOp.cloneRef => addNodeRef s
    | NodeOp.dropRef => freeNode s) s

theorem runNodeOps_append (l₁ l₂ : List NodeOp) (s : EngineNodeState) :
    runNodeOps (l₁ ++ l₂) s = runNodeOps l₂ (runNodeOps l₁ s) := by
  simp [runNodeOps]

theorem runNodeOps_clones (N : Nat) : ∀ c f : Nat,
    runNodeOps (List.replicate N NodeOp.cloneRef) ⟨c, f⟩ = ⟨c + N, f⟩ := by
  induction N with
  | zero => intro c f; rfl
  | succ n ih =>
      intro c f
      rw [List.replicate_succ]
      show runNodeOps (List.replicate n NodeOp.cloneRef) (addNodeRef ⟨c, f⟩) = _
      rw [show addNodeRef ⟨c, f⟩ = ⟨c + 1, f⟩ from rfl, ih]
      congr 1
      omega

theorem runNodeOps_drops_partial (k : Nat) : ∀ c f : Nat, k < c →
    runNodeOps (List.replicate k NodeOp.dropRef) ⟨c, f⟩ = ⟨c - k, f⟩ := by
  induction k with
  | zero => intro c f _; rfl
  | succ n ih =>
      intro c f h
      rw [List.replicate_succ]
      show runNodeOps (List.replicate n NodeOp.dropRef) (freeNode ⟨c, f⟩) = _
      have hc : ¬ c = 1 := by omega
      rw [show freeNode ⟨c, f⟩ = ⟨c - 1, f⟩ from by simp [freeNode, hc]]
      rw [ih (c - 1) f (by omega)]
      congr 1
      omega

theorem runNodeOps_drops_all (c f : Nat) (h : 1 ≤ c) :
    runNodeOps (List.replicate c NodeOp.dropRef) ⟨c, f⟩ = ⟨0, f + 1⟩ := by
  obtain ⟨m, rfl⟩ : ∃ m, c = m + 1 := ⟨c - 1, by omega⟩
  rw [List.replicate_succ', runNodeOps_append,
    runNodeOps_drops_partial m (m + 1) f (by omega)]
  have hm : m + 1 - m = 1 := by omega
  rw [hm]
  simp [runNodeOps, freeNode]

/-- Claim C7: starting from the single live reference held at registration,
cloning the handle N times issues one addNodeRef per clone and dropping a
handle issues one freeNode per drop, so after N clones followed by any k ≤ N
of the N + 1 drops the node has not been torn down (its count is still
positive and the teardown never ran), while completing all N + 1 drops tears
the node down exactly once, at the last drop. -/
theorem c7_refcount_frees_exactly_once_at_last_drop (N k : Nat) (hk : k ≤ N) :
    (runNodeOps (List.replicate N NodeOp.cloneRef ++ List.replicate k NodeOp.dropRef)
      ⟨1, 0⟩).freeCount = 0 ∧
    0 < (runNodeOps (List.replicate N NodeOp.cloneRef ++ List.replicate k NodeOp.dropRef)
      ⟨1, 0⟩).refcount ∧
    runNodeOps (List.replicate N NodeOp.cloneRef ++ List.replicate (N + 1) NodeOp.dropRef)
      ⟨1, 0⟩ = ⟨0, 1⟩ := by
  have hmid : runNodeOps
      (List.replicate N NodeOp.cloneRef ++ List.replicate k NodeOp.dropRef) ⟨1, 0⟩ =
      ⟨1 + N - k, 0⟩ := by
    rw [runNodeOps_append, runNodeOps_clones N 1 0,
      runNodeOps_drops_partial k (1 + N) 0 (by omega)]
  refine ⟨?_, ?_, ?_⟩
  · rw [hmid]
  · rw [hmid]
    show 0 < 1 + N - k
    omega
  · rw [runNodeOps_append, runNodeOps_clones N 1 0]
    have h1 : 1 + N = N + 1 := by omega
    rw [h1]
    exact runNodeOps_drops_all (N + 1) 0 (by omega)

/-- Witness for the C7 theorem with two clones and one early drop. -/
theorem c7_refcount_witness :
    (1 : Nat) ≤ 2 ∧
    (runNodeOps (List.replicate 2 NodeOp.cloneRef ++ List.replicate 1 NodeOp.dropRef)
      ⟨1, 0⟩).freeCount = 0 ∧
    runNodeOps (List.replicate 2 NodeOp.cloneRef ++ List.replicate 3 NodeOp.dropRef)
      ⟨1, 0⟩ = ⟨0, 1⟩ :=
  have h := c7_refcount_frees_exactly_once_at_last_drop 2 1 (by decide)
  ⟨by decide, h.1, h.2.2⟩

/-- Core handle: the owned engine instance pointer (core.rs Core). -/
structure Core where
  ptr : Nat
deriving DecidableEq

/-- The five parameters of a video format query (core.rs lines 313-321). -/
structure VideoFormatParams where
  color_family : Nat
  sample_type : Nat
  bits_per_sample : Int
  subsampling_w : Int
  subsampling_h : Int
deriving DecidableEq

/-- Shallow embedding of Core::query_video_format_id (core.rs lines 313-332).
The method takes the core by shared reference and forwards to the engine's
queryVideoFormatID; the spec fixes the engine side as a pure function over
format descriptors with no mutation, so it is modelled as a pure oracle of the
core state and the parameters, and the call returns the id together with the
unchanged core state. -/
def query_video_format_id (engineQuery : Core → VideoFormatParams → Nat)
    (core : Core) (p : VideoFormatParams) : Nat × Core :=
  (engineQuery core p, core)

/-- Claim C8: two successive calls of Core::query_video_format_id with the
same parameter tuple — the second running on the core state the first call
left behind — return the same id, and neither call mutates the core. -/
theorem c8_query_video_format_id_idempotent
    (engineQuery : Core → VideoFormatParams → Nat) (core : Core)
    (p : VideoFormatParams) :
    (query_video_format_id engineQuery core p).1 =
      (query_video_format_id engineQuery
        (query_video_format_id engineQuery core p).2 p).1 ∧
    (query_video_format_id engineQuery core p).2 = core ∧
    (query_video_format_id engineQuery
      (query_video_format_id engineQuery core p).2 p).2 = core :=
  ⟨rfl, rfl, rfl⟩

/-- The process-wide API table handle (api.rs ApiRef is not in this snapshot;
only its identity matters to the core builder). -/
structure ApiRef where
  ptr : Nat
deriving DecidableEq

/-- CoreBuilder (core.rs lines 380-386): creation flags, an optional API
handle, and the optional cache-size and thread-count settings. -/
structure CoreBuilder where
  flags : Int
  api : Option ApiRef
  max_cache_size : Option Int
  thread_count : Option Int
deriving DecidableEq

/-- One engine call performed while building a core. -/
inductive CoreCall
  | createCore (flags : Int)
  | setMaxCacheSize (size : Int)
  | setThreadCount (count : Int)
deriving DecidableEq

/-- Shallow embedding of CoreBuilder::build (core.rs lines 394-404) as the
sequence of engine calls it performs: createCore with the flags, then
setMaxCacheSize when configured, then setThreadCount when configured.  The
api field is never read. -/
def CoreBuilder.build (b : CoreBuilder) : List CoreCall :=
  [CoreCall.createCore b.flags]
    ++ (match b.max_cache_size with
        | some size => [CoreCall.setMaxCacheSize size]
        | none => [])
    ++ (match b.thread_count with
        | some count => [CoreCall.setThreadCount count]
        | none => [])

/-- CoreBuilder::api (core.rs lines 431-434), which only stores the handle. -/
def CoreBuilder.with_api (b : CoreBuilder) (api : ApiRef) : CoreBuilder :=
  { b with api := some api }

/-- Claim C9: the core produced by CoreBuilder::build is independent of the
api field: two builders differing only in that field perform identical engine
call sequences, and storing an API handle through CoreBuilder::api does not
change what build does. -/
theorem c9_build_independent_of_api (b : CoreBuilder) (a : ApiRef)
    (a₁ a₂ : Option ApiRef) :
    CoreBuilder.build { b with api := a₁ } = CoreBuilder.build { b with api := a₂ } ∧
    (b.with_api a).build = b.build :=
  ⟨rfl, rfl⟩
